import Mathlib

/-!
Shallow embedding of `src/main.ts` (client-side behavior layer of the
tailwind-prac marketing site) and verification of its specification.

The script has five parts: `setupMobileMenu`, `setupSmoothScrolling`,
`setupContactForm`, `setupButtons` and the `init` bootstrapper.  Every
handler is a synchronous function of the DOM state it reads at invocation
time, so each one is embedded as a pure Lean function from an explicit
model of the relevant DOM fragment to a list of observable effects
(and, where the handler mutates state, the successor state).
-/

namespace TailwindPrac

/-- Observable effects a handler can emit, in order of emission. -/
inductive Effect where
  /-- `event.preventDefault()` was called. -/
  | preventDefault : Effect
  /-- `el.scrollIntoView` was called on the element with the given id,
  with the given `behavior` and (when supplied) `block` option. -/
  | scrollIntoView (targetId : String) (behavior : String) (block : Option String) : Effect
  /-- `alert(msg)` was called. -/
  | alertMsg (msg : String) : Effect
  /-- `form.reset()` was called. -/
  | resetForm : Effect
deriving DecidableEq

/-! ## MenuToggle (`setupMobileMenu`, main.ts lines 9 to 33) -/

/-- The ten class names toggled by the menu click handler, in the order the
source toggles them (main.ts lines 22 to 31). -/
def toggledClasses : List String :=
  ["hidden", "flex", "flex-col", "absolute", "top-16", "left-0",
   "w-full", "bg-white", "shadow-lg", "p-4"]

/-- A `classList` is modelled by its membership function. -/
def ClassList : Type := String → Bool

/-- `el.classList.toggle(c)`: flip membership of class `c`. -/
def classListToggle (c : String) (s : ClassList) : ClassList :=
  fun x => if x = c then !(s x) else s x

/-- Toggle each class of the list in sequence, as the handler body does. -/
def toggleAll : List String → ClassList → ClassList
  | [], s => s
  | c :: cs, s => toggleAll cs (classListToggle c s)

/-- The click handler registered on the mobile menu button: toggles the
ten presentation classes of the panel (main.ts lines 19 to 32). -/
def menuClickHandler (s : ClassList) : ClassList :=
  toggleAll toggledClasses s

/-- The panel class list after `n` clicks on the menu button. -/
def menuAfterClicks : Nat → ClassList → ClassList
  | 0, s => s
  | n + 1, s => menuClickHandler (menuAfterClicks n s)

/-- The panel is fully in the closed configuration: `hidden` is applied
and the nine overlay classes are all absent. -/
def fullyClosed (s : ClassList) : Prop :=
  s "hidden" = true ∧ s "flex" = false ∧ s "flex-col" = false ∧
  s "absolute" = false ∧ s "top-16" = false ∧ s "left-0" = false ∧
  s "w-full" = false ∧ s "bg-white" = false ∧ s "shadow-lg" = false ∧
  s "p-4" = false

/-- The panel is fully in the open configuration: `hidden` is absent and
the nine overlay classes are all applied. -/
def fullyOpen (s : ClassList) : Prop :=
  s "hidden" = false ∧ s "flex" = true ∧ s "flex-col" = true ∧
  s "absolute" = true ∧ s "top-16" = true ∧ s "left-0" = true ∧
  s "w-full" = true ∧ s "bg-white" = true ∧ s "shadow-lg" = true ∧
  s "p-4" = true

instance (s : ClassList) : Decidable (fullyClosed s) := by
  unfold fullyClosed; infer_instance

instance (s : ClassList) : Decidable (fullyOpen s) := by
  unfold fullyOpen; infer_instance

/-- Model of the document fragment `setupMobileMenu` reads: presence of
the trigger button (`.md:hidden button`) and of the panel
(`.hidden.md:flex`).  `none` means `querySelector` finds no element. -/
structure MenuDoc where
  menuButton : Option Unit
  menuPanel : Option Unit
deriving DecidableEq

/-- Outcome of running a setup routine. -/
inductive SetupResult where
  /-- The routine threw an unhandled runtime exception with this name. -/
  | fault (name : String) : SetupResult
  /-- The routine returned normally, registering this many click handlers. -/
  | ok (handlersRegistered : Nat) : SetupResult
deriving DecidableEq

/-- `setupMobileMenu` (main.ts lines 9 to 33).  The source looks up both
elements with `querySelector` and a TypeScript non-null assertion, then
calls `addEventListener` on the button.  At runtime the assertion erases,
so when the button lookup returns `null` the `addEventListener` call
throws a TypeError; when the button exists the handler is registered
unconditionally (a missing panel is not checked at setup time). -/
def setupMobileMenu (doc : MenuDoc) : SetupResult :=
  match doc.menuButton with
  | none => SetupResult.fault "TypeError"
  | some _ => SetupResult.ok 1

/-- `r` raised no unhandled fault. -/
def raisesNoFault (r : SetupResult) : Prop :=
  ∀ m, r ≠ SetupResult.fault m

/-- `r` registered no handler and raised no fault. -/
def silentNoOp (r : SetupResult) : Prop :=
  r = SetupResult.ok 0

/-! ## SmoothScroller (`setupSmoothScrolling`, main.ts lines 43 to 72) -/

/-- For fragment lookups the document is modelled by the list of element
ids it contains, in document order. -/
def Doc : Type := List String

/-- `document.querySelector(sel)` for an id selector `sel` of the form
hash-mark followed by an id: returns the first element whose id matches,
`none` when no element matches. -/
def querySelectorIdSel (doc : Doc) (sel : String) : Option String :=
  List.find? (fun i => "#" ++ i = sel) doc

/-- The click handler `setupSmoothScrolling` attaches to each link whose
`href` attribute starts with the fragment marker (main.ts lines 50 to 70).
`doc` is the document at click time; `href` is `link.getAttribute('href')`
at click time (`none` models a `null` attribute).  Emits the effect trace:
`preventDefault` always fires first; then, when the target id is truthy
(non-null, non-empty) and not the bare fragment marker, the target is
looked up and, when found, scrolled into view smoothly aligned to start. -/
def linkClickHandler (doc : Doc) (href : Option String) : List Effect :=
  Effect.preventDefault ::
    (match href with
     | none => []
     | some targetId =>
       if targetId ≠ "" ∧ targetId ≠ "#" then
         match querySelectorIdSel doc targetId with
         | some el => [Effect.scrollIntoView el "smooth" (some "start")]
         | none => []
       else [])

/-! ## ContactFormHandler (`setupContactForm`, main.ts lines 83 to 119) -/

/-- The form as the submit handler reads it: the four field values looked
up at submit time.  `none` models an absent input element (the optional
chaining `input?.value` then yields `undefined`); `some s` is the current
value of a present field. -/
structure Form where
  nameVal : Option String
  emailVal : Option String
  subjectVal : Option String
  messageVal : Option String
deriving DecidableEq

/-- JavaScript truthiness of `input?.value`: `undefined` (absent element)
and the empty string are falsy, every other string is truthy. -/
def truthy : Option String → Bool
  | none => false
  | some s => !s.isEmpty

/-- `form.reset()` on this form: every present field returns to its
default value, the empty string. -/
def formReset (f : Form) : Form :=
  ⟨f.nameVal.map (fun _ => ""), f.emailVal.map (fun _ => ""),
   f.subjectVal.map (fun _ => ""), f.messageVal.map (fun _ => "")⟩

/-- The success alert template of main.ts line 109, with the submitted
name and email interpolated. -/
def successAlert (name email : String) : String :=
  "Thank you " ++ name ++
    "! Your message has been received. We\x27ll get back to you at " ++
    email ++ " soon!"

/-- The failure alert of main.ts line 115. -/
def failureAlert : String :=
  "Please fill in all fields before submitting."

/-- The submit handler `setupContactForm` attaches to the form (main.ts
lines 89 to 117): suppress default submission, read the four values, and
either acknowledge and reset (all four truthy) or alert the error and
leave the form as it is.  Returns the effect trace and the form state
after the handler. -/
def submitHandler (f : Form) : List Effect × Form :=
  if truthy f.nameVal && truthy f.emailVal &&
     truthy f.subjectVal && truthy f.messageVal then
    ([Effect.preventDefault,
      Effect.alertMsg (successAlert (f.nameVal.getD "") (f.emailVal.getD "")),
      Effect.resetForm],
     formReset f)
  else
    ([Effect.preventDefault, Effect.alertMsg failureAlert], f)

/-! ## ButtonRouter (`setupButtons`, main.ts lines 128 to 155) -/

/-- JavaScript `trim()` as read by `setupButtons` (main.ts line 134):
strip whitespace from both ends of the string.  Modelled structurally
over the character list so it evaluates by kernel reduction. -/
def jsTrim (s : String) : String :=
  String.mk
    (((s.data.dropWhile Char.isWhitespace).reverse.dropWhile
        Char.isWhitespace).reverse)

/-- The routing decision of `setupButtons` for one button: given the
`textContent` of the button at setup time (`none` models `null`), return
the id selector of the section its click handler scrolls to, or `none`
when no click handler is attached (main.ts lines 134 to 153). -/
def buttonRoute (textContent : Option String) : Option String :=
  let buttonText := textContent.map jsTrim
  if buttonText = some "Get Started" ∨ buttonText = some "Get a Quote" then
    some "#contact"
  else if buttonText = some "View Work" then
    some "#portfolio"
  else
    none

/-- The click handler attached to a routed button, with target id
selector `sel` (main.ts lines 138 to 152): look the section up in the
click-time document and, when present, scroll it into view smoothly (no
`block` option is passed). -/
def routedButtonClickHandler (doc : Doc) (sel : String) : List Effect :=
  match querySelectorIdSel doc sel with
  | some el => [Effect.scrollIntoView el "smooth" none]
  | none => []

/-- A click on an arbitrary button of the page after setup: when
`setupButtons` attached no handler the click emits nothing, otherwise it
runs the attached handler against the click-time document. -/
def buttonPageClick (doc : Doc) (textContent : Option String) : List Effect :=
  match buttonRoute textContent with
  | some sel => routedButtonClickHandler doc sel
  | none => []

/-! ## Bootstrapper (`init`, main.ts lines 165 to 182) -/

/-- One step of the initialization sequence. -/
inductive InitStep where
  /-- `console.log(msg)`. -/
  | logLine (msg : String) : InitStep
  /-- Invocation of the named setup routine. -/
  | runSetup (routine : String) : InitStep
deriving DecidableEq

/-- The body of the `DOMContentLoaded` listener registered by `init`
(main.ts lines 168 to 178), as the sequence of steps it performs. -/
def initSequence : List InitStep :=
  [InitStep.logLine "🚀 Website initialized with TypeScript!",
   InitStep.runSetup "setupMobileMenu",
   InitStep.runSetup "setupSmoothScrolling",
   InitStep.runSetup "setupContactForm",
   InitStep.runSetup "setupButtons",
   InitStep.logLine "✅ All functionality is now active!"]

/-- The listeners `init` registers: event name paired with the step
sequence the listener runs.  `init` registers exactly one listener, on
`DOMContentLoaded` (main.ts line 168). -/
def initListeners : List (String × List InitStep) :=
  [("DOMContentLoaded", initSequence)]

/-- The steps run when the document-ready signal fires: every listener
registered for `DOMContentLoaded`, in registration order. -/
def stepsAfterReady : List InitStep :=
  List.foldl (fun acc p => acc ++ p.2)
    [] (List.filter (fun p => p.1 = "DOMContentLoaded") initListeners)

/-- Whether a step is a diagnostic log line. -/
def isLogLine : InitStep → Bool
  | InitStep.logLine _ => true
  | InitStep.runSetup _ => false

/-- Whether a step is a setup-routine invocation. -/
def isRunSetup : InitStep → Bool
  | InitStep.logLine _ => false
  | InitStep.runSetup _ => true

/-- A sample initial panel class list for concrete evaluation: only the
`hidden` class applied, the fully closed configuration. -/
def sampleMenuStart : ClassList := fun x => x == "hidden"

/-! ## Theorems -/

/-- Running `toggleAll` on an arbitrary class list acts pointwise as an
exclusive-or with its action on the empty class list. -/
theorem toggleAll_apply (cs : List String) (s : ClassList) (x : String) :
    toggleAll cs s x = xor (s x) (toggleAll cs (fun _ => false) x) := by
  induction cs generalizing s with
  | nil => simp [toggleAll]
  | cons c cs ih =>
    simp only [toggleAll]
    rw [ih (classListToggle c s), ih (classListToggle c (fun _ => false))]
    by_cases h : x = c <;>
      simp [classListToggle, h, ← Bool.xor_assoc]

/-- Pointwise characterization of one menu click. -/
theorem menuClickHandler_apply (s : ClassList) (x : String) :
    menuClickHandler s x = xor (s x) (menuClickHandler (fun _ => false) x) :=
  toggleAll_apply toggledClasses s x

/-- A menu click flips the membership of every toggled class. -/
theorem menuClickHandler_flips (s : ClassList) (x : String)
    (hx : x ∈ toggledClasses) : menuClickHandler s x = !(s x) := by
  rw [menuClickHandler_apply]
  have hp : menuClickHandler (fun _ => false) x = true := by
    simp only [toggledClasses, List.mem_cons, List.not_mem_nil, or_false] at hx
    rcases hx with rfl | rfl | rfl | rfl | rfl | rfl | rfl | rfl | rfl | rfl <;>
      decide
  rw [hp, Bool.xor_true]

/-- C7: MenuToggle round-trip — for every panel class list, two clicks of
the menu toggle return every class membership (in particular every one of
the ten toggled presentation classes) to its value before the first
click. -/
theorem menu_double_toggle_roundtrip (s : ClassList) (x : String) :
    menuClickHandler (menuClickHandler s) x = s x := by
  rw [menuClickHandler_apply (menuClickHandler s) x, menuClickHandler_apply s x,
    Bool.xor_assoc, Bool.xor_self, Bool.xor_false]

/-- One click takes the fully closed configuration to the fully open
one. -/
theorem fullyClosed_click (s : ClassList) (h : fullyClosed s) :
    fullyOpen (menuClickHandler s) := by
  obtain ⟨h1, h2, h3, h4, h5, h6, h7, h8, h9, h10⟩ := h
  refine ⟨?_, ?_, ?_, ?_, ?_, ?_, ?_, ?_, ?_, ?_⟩ <;>
    rw [menuClickHandler_apply] <;>
      simp only [h1, h2, h3, h4, h5, h6, h7, h8, h9, h10] <;> decide

/-- One click takes the fully open configuration to the fully closed
one. -/
theorem fullyOpen_click (s : ClassList) (h : fullyOpen s) :
    fullyClosed (menuClickHandler s) := by
  obtain ⟨h1, h2, h3, h4, h5, h6, h7, h8, h9, h10⟩ := h
  refine ⟨?_, ?_, ?_, ?_, ?_, ?_, ?_, ?_, ?_, ?_⟩ <;>
    rw [menuClickHandler_apply] <;>
      simp only [h1, h2, h3, h4, h5, h6, h7, h8, h9, h10] <;> decide

/-- C8: MenuToggle atomicity invariant — starting from a panel whose
attribute group is fully in the closed or fully in the open
configuration, after every number of toggle clicks the group is again
fully closed or fully open, never mixed (the handler toggles all ten
classes in lockstep). -/
theorem menu_state_never_mixed (s : ClassList)
    (h : fullyClosed s ∨ fullyOpen s) (n : Nat) :
    fullyClosed (menuAfterClicks n s) ∨ fullyOpen (menuAfterClicks n s) := by
  induction n with
  | zero => exact h
  | succ n ih =>
    rcases ih with hc | ho
    · exact Or.inr (fullyClosed_click _ hc)
    · exact Or.inl (fullyOpen_click _ ho)

/-- Witness for C8 at a concrete closed panel and three clicks. -/
theorem menu_state_never_mixed_witness :
    (fullyClosed sampleMenuStart ∨ fullyOpen sampleMenuStart) ∧
    (fullyClosed (menuAfterClicks 3 sampleMenuStart) ∨
      fullyOpen (menuAfterClicks 3 sampleMenuStart)) :=
  ⟨Or.inl (by decide),
   menu_state_never_mixed sampleMenuStart (Or.inl (by decide)) 3⟩

/-- C1 counterexample: in a document where the menu trigger control is
absent (and the panel present), `setupMobileMenu` raises an unhandled
TypeError — absence is not a silent no-op, refuting the claim at this
concrete input. -/
theorem setupMobileMenu_absence_faults :
    setupMobileMenu ⟨none, some ()⟩ = SetupResult.fault "TypeError" ∧
    ¬ raisesNoFault (setupMobileMenu ⟨none, some ()⟩) ∧
    ¬ silentNoOp (setupMobileMenu ⟨none, some ()⟩) := by
  refine ⟨rfl, fun h => h "TypeError" rfl, fun h => ?_⟩
  simp [silentNoOp, setupMobileMenu] at h

/-- C1 (amended): when the menu trigger control is absent the setup
routine registers no click handler but raises an unhandled TypeError
(the non-null assertion erases and `addEventListener` is invoked on a
null lookup); when the trigger is present a handler is registered
without fault, whether or not the panel is present. -/
theorem setupMobileMenu_absence_behavior (doc : MenuDoc) :
    (doc.menuButton = none →
      setupMobileMenu doc = SetupResult.fault "TypeError") ∧
    (doc.menuButton ≠ none → setupMobileMenu doc = SetupResult.ok 1) := by
  constructor
  · intro h; simp [setupMobileMenu, h]
  · intro h
    match hb : doc.menuButton with
    | none => exact absurd hb h
    | some u => simp [setupMobileMenu, hb]

/-- Witness for the amended C1 at concrete documents. -/
theorem setupMobileMenu_absence_behavior_witness :
    setupMobileMenu ⟨none, none⟩ = SetupResult.fault "TypeError" ∧
    setupMobileMenu ⟨some (), none⟩ = SetupResult.ok 1 :=
  ⟨(setupMobileMenu_absence_behavior ⟨none, none⟩).1 rfl,
   (setupMobileMenu_absence_behavior ⟨some (), none⟩).2 (by decide)⟩

/-- C2: ContactFormHandler success path — when all four submitted field
values are present and non-empty, the handler suppresses the default
submission, shows exactly one alert whose text is exactly the success
template with the submitted name and email interpolated, and then resets
all form fields to the empty string. -/
theorem contactForm_success (f : Form) (name email subject message : String)
    (hn : f.nameVal = some name) (he : f.emailVal = some email)
    (hs : f.subjectVal = some subject) (hm : f.messageVal = some message)
    (hn0 : name ≠ "") (he0 : email ≠ "") (hs0 : subject ≠ "")
    (hm0 : message ≠ "") :
    (submitHandler f).1 =
      [Effect.preventDefault,
       Effect.alertMsg ("Thank you " ++ name ++
         "! Your message has been received. We\x27ll get back to you at " ++
         email ++ " soon!"),
       Effect.resetForm] ∧
    (submitHandler f).2 = ⟨some "", some "", some "", some ""⟩ := by
  have htr : ∀ s : String, s ≠ "" → truthy (some s) = true := by
    intro s hs0
    cases hb : s.isEmpty with
    | false => simp [truthy, hb]
    | true => exact absurd ((String.isEmpty_iff s).mp hb) hs0
  simp [submitHandler, hn, he, hs, hm, htr name hn0, htr email he0,
    htr subject hs0, htr message hm0, successAlert, formReset]

/-- Witness for C2 at the example submission from the specification. -/
theorem contactForm_success_witness :
    (submitHandler
        ⟨some "Ada", some "ada@example.com", some "Hi", some "Hello"⟩).1 =
      [Effect.preventDefault,
       Effect.alertMsg ("Thank you " ++ "Ada" ++
         "! Your message has been received. We\x27ll get back to you at " ++
         "ada@example.com" ++ " soon!"),
       Effect.resetForm] ∧
    (submitHandler
        ⟨some "Ada", some "ada@example.com", some "Hi", some "Hello"⟩).2 =
      ⟨some "", some "", some "", some ""⟩ :=
  contactForm_success ⟨some "Ada", some "ada@example.com", some "Hi",
    some "Hello"⟩ "Ada" "ada@example.com" "Hi" "Hello" rfl rfl rfl rfl
    (by decide) (by decide) (by decide) (by decide)

/-- C3: ContactFormHandler failure path — when at least one of the four
field values is missing (empty string, absent element, or undefined),
the handler shows exactly one alert whose text is exactly the failure
message and leaves every form field value unchanged. -/
theorem contactForm_failure (f : Form)
    (h : truthy f.nameVal = false ∨ truthy f.emailVal = false ∨
         truthy f.subjectVal = false ∨ truthy f.messageVal = false) :
    (submitHandler f).1 =
      [Effect.preventDefault,
       Effect.alertMsg "Please fill in all fields before submitting."] ∧
    (submitHandler f).2 = f := by
  unfold submitHandler
  rcases h with h | h | h | h <;> simp [h, failureAlert]

/-- Witness for C3 at the example submission from the specification
(message field empty). -/
theorem contactForm_failure_witness :
    (submitHandler
        ⟨some "Ada", some "ada@example.com", some "Hi", some ""⟩).1 =
      [Effect.preventDefault,
       Effect.alertMsg "Please fill in all fields before submitting."] ∧
    (submitHandler
        ⟨some "Ada", some "ada@example.com", some "Hi", some ""⟩).2 =
      ⟨some "Ada", some "ada@example.com", some "Hi", some ""⟩ :=
  contactForm_failure ⟨some "Ada", some "ada@example.com", some "Hi", some ""⟩
    (Or.inr (Or.inr (Or.inr (by decide))))

/-- C4: SmoothScroller positive path — a click on a link whose href
starts with the fragment marker, is not the bare marker, and resolves to
an element of the click-time document, suppresses the default navigation
and emits exactly one smooth scroll-into-view of that element aligned to
the viewport top (block start). -/
theorem smoothScroll_target_found (doc : Doc) (href : String) (el : String)
    (hpre : ∃ r, href = "#" ++ r) (hbare : href ≠ "#")
    (hfind : querySelectorIdSel doc href = some el) :
    linkClickHandler doc (some href) =
      [Effect.preventDefault,
       Effect.scrollIntoView el "smooth" (some "start")] := by
  obtain ⟨r, hr⟩ := hpre
  have hne : href ≠ "" := by
    intro h
    rw [hr] at h
    have := congrArg String.length h
    simp [String.length_append] at this
    exact absurd this.1 (by decide)
  simp [linkClickHandler, hne, hbare, hfind]

/-- Witness for C4 at a concrete document and link. -/
theorem smoothScroll_target_found_witness :
    linkClickHandler ["home", "services", "contact"] (some "#contact") =
      [Effect.preventDefault,
       Effect.scrollIntoView "contact" "smooth" (some "start")] :=
  smoothScroll_target_found ["home", "services", "contact"] "#contact"
    "contact" ⟨"contact", by decide⟩ (by decide) (by decide)

/-- C5: SmoothScroller negative path — a click on a fragment-style link
whose href is empty, the bare marker, or resolves to no element of the
click-time document, emits no scroll invocation (only the unconditional
`preventDefault`); the handler is total, so no fault is raised. -/
theorem smoothScroll_target_missing (doc : Doc) (href : String)
    (h : href = "" ∨ href = "#" ∨ querySelectorIdSel doc href = none) :
    linkClickHandler doc (some href) = [Effect.preventDefault] := by
  rcases h with rfl | rfl | h
  · simp [linkClickHandler]
  · simp [linkClickHandler]
  · unfold linkClickHandler
    by_cases hc : href ≠ "" ∧ href ≠ "#"
    · simp [hc, h]
    · simp [hc]

/-- Witness for C5 at a concrete document and a dangling fragment. -/
theorem smoothScroll_target_missing_witness :
    linkClickHandler ["home", "services"] (some "#contact") =
      [Effect.preventDefault] :=
  smoothScroll_target_missing ["home", "services"] "#contact"
    (Or.inr (Or.inr (by decide)))

/-- C6: ButtonRouter — a button whose trimmed text content is exactly
`Get Started` or `Get a Quote` gets a click handler routed to the contact
section selector; trimmed text exactly `View Work` routes to the
portfolio section selector; any other text content (matching is
exact-string and case-sensitive) attaches no handler, and a click on such
a button emits no effect in any document. -/
theorem buttonRoute_spec (tc : Option String) (doc : Doc) :
    ((tc.map jsTrim = some "Get Started" ∨
        tc.map jsTrim = some "Get a Quote") →
      buttonRoute tc = some "#contact") ∧
    (tc.map jsTrim = some "View Work" →
      buttonRoute tc = some "#portfolio") ∧
    (tc.map jsTrim ≠ some "Get Started" →
      tc.map jsTrim ≠ some "Get a Quote" →
      tc.map jsTrim ≠ some "View Work" →
      buttonRoute tc = none ∧ buttonPageClick doc tc = []) := by
  refine ⟨?_, ?_, ?_⟩
  · intro h
    rcases h with h | h <;> simp [buttonRoute, h]
  · intro h
    simp [buttonRoute, h]
  · intro h1 h2 h3
    have hnone : buttonRoute tc = none := by
      simp [buttonRoute, h1, h2, h3]
    exact ⟨hnone, by simp [buttonPageClick, hnone]⟩

/-- Witness for C6: one button of each recognized label, plus an
unrecognized label, against a concrete document. -/
theorem buttonRoute_spec_witness :
    buttonRoute (some " Get Started ") = some "#contact" ∧
    buttonRoute (some "View Work") = some "#portfolio" ∧
    (buttonRoute (some "Learn More") = none ∧
      buttonPageClick ["contact", "portfolio"] (some "Learn More") = []) :=
  ⟨(buttonRoute_spec (some " Get Started ") []).1 (Or.inl (by decide)),
   (buttonRoute_spec (some "View Work") []).2.1 (by decide),
   (buttonRoute_spec (some "Learn More") ["contact", "portfolio"]).2.2
     (by decide) (by decide) (by decide)⟩

/-- C9: Bootstrapper — `init` registers exactly one document-ready
listener, and the steps run on the ready signal are exactly: the start
diagnostic log line, the four setup routines in the fixed order
MenuToggle, SmoothScroller, ContactFormHandler, ButtonRouter, and the
completion diagnostic log line; in particular exactly two of the steps
are log lines, one before the setups and one after. -/
theorem init_runs_once_in_order :
    initListeners.length = 1 ∧
    stepsAfterReady =
      [InitStep.logLine "🚀 Website initialized with TypeScript!",
       InitStep.runSetup "setupMobileMenu",
       InitStep.runSetup "setupSmoothScrolling",
       InitStep.runSetup "setupContactForm",
       InitStep.runSetup "setupButtons",
       InitStep.logLine "✅ All functionality is now active!"] ∧
    (List.filter isLogLine stepsAfterReady).length = 2 ∧
    List.filter isRunSetup stepsAfterReady =
      [InitStep.runSetup "setupMobileMenu",
       InitStep.runSetup "setupSmoothScrolling",
       InitStep.runSetup "setupContactForm",
       InitStep.runSetup "setupButtons"] := by
  refine ⟨rfl, ?_, ?_, ?_⟩ <;>
    simp [stepsAfterReady, initListeners, initSequence, isLogLine, isRunSetup]

/-- C10: click-time target resolution — for a fragment link (href starts
with the marker and is not the bare marker) the click handler scrolls if
and only if the fragment resolves to an element of the document passed to
the handler, which is the document at the moment of the click; likewise a
routed button click scrolls if and only if its target selector resolves
in the click-time document.  Neither handler takes any setup-time
document as input. -/
theorem scroll_resolved_at_click_time (doc : Doc) (href : String)
    (tc : Option String) (sel : String)
    (hpre : ∃ r, href = "#" ++ r) (hbare : href ≠ "#")
    (hroute : buttonRoute tc = some sel) :
    ((∃ el, querySelectorIdSel doc href = some el) ↔
      (∃ el b, Effect.scrollIntoView el "smooth" b ∈
        linkClickHandler doc (some href))) ∧
    ((∃ el, querySelectorIdSel doc sel = some el) ↔
      (∃ el, Effect.scrollIntoView el "smooth" none ∈
        buttonPageClick doc tc)) := by
  obtain ⟨r, hr⟩ := hpre
  have hne : href ≠ "" := by
    intro h
    rw [hr] at h
    have := congrArg String.length h
    simp [String.length_append] at this
    exact absurd this.1 (by decide)
  constructor
  · cases hq : querySelectorIdSel doc href with
    | some el => simp [linkClickHandler, hne, hbare, hq]
    | none => simp [linkClickHandler, hne, hbare, hq]
  · cases hq : querySelectorIdSel doc sel with
    | some el => simp [buttonPageClick, hroute, routedButtonClickHandler, hq]
    | none => simp [buttonPageClick, hroute, routedButtonClickHandler, hq]

/-- Witness for C10: a fragment link whose target exists and a routed
button whose target exists, in a concrete click-time document. -/
theorem scroll_resolved_at_click_time_witness :
    ((∃ el, querySelectorIdSel ["contact", "portfolio"] "#contact" = some el) ↔
      (∃ el b, Effect.scrollIntoView el "smooth" b ∈
        linkClickHandler ["contact", "portfolio"] (some "#contact"))) ∧
    ((∃ el, querySelectorIdSel ["contact", "portfolio"] "#portfolio" = some el) ↔
      (∃ el, Effect.scrollIntoView el "smooth" none ∈
        buttonPageClick ["contact", "portfolio"] (some "View Work"))) :=
  scroll_resolved_at_click_time ["contact", "portfolio"] "#contact"
    (some "View Work") "#portfolio" ⟨"contact", by decide⟩ (by decide)
    (by decide)

end TailwindPrac
